import Mathlib

/-!
Shallow embedding of the `blog-site` repository: the data model
(`posts/models.py`), the read-only views (`posts/views.py`), the signup
view (`users/views.py` with `users/forms.py`), and the routing table
(`blog_site/urls.py`, `users/urls.py`).

Django rows become Lean structures, the database becomes explicit lists,
and each view becomes a pure function that takes the storage state and
returns the (possibly updated) state together with a response value.
-/

namespace BlogSite

/-- The framework's `django.contrib.auth.models.User`, as far as the application reads it:
an auto primary key, a username and an email. -/
structure User where
  id : Nat
  username : String
  email : String
deriving Repr, DecidableEq

/-- Row type of `posts/models.py` `Post`: `title = CharField(max_length=60)`,
`content = TextField()`, `publish_date = DateField()`; dates are modelled
as ordinal day numbers. Identity is the auto integer `id`. -/
structure Post where
  id : Nat
  title : String
  content : String
  publish_date : Nat
deriving Repr, DecidableEq

/-- Row type of `posts/models.py` `Comment`: `content = TextField()`, a foreign key to
`Post` and a foreign key to `User`, both `on_delete=CASCADE`. -/
structure Comment where
  id : Nat
  content : String
  post_id : Nat
  user_id : Nat
deriving Repr, DecidableEq

/-- The relational store the views query: the `Post` and `Comment` tables
plus the framework's `User` table. -/
structure DB where
  posts : List Post
  comments : List Comment
  users : List User
deriving Repr, DecidableEq

/-- A rendered response. `render` carries the template name, the posts put
in the context, and (for the detail page) the comment list, each comment
paired with the eagerly joined user row (`select_related("user")`). -/
inductive Response where
  | render (template : String) (posts : List Post)
      (comments : List (Comment × Option User))
  | notFound
deriving Repr, DecidableEq

/-- The ordering used by `Post.objects.order_by("-id")`: descending id. -/
def postOrder (a b : Post) : Prop := b.id ≤ a.id

instance : DecidableRel postOrder := fun a b => Nat.decLe b.id a.id

instance : IsTotal Post postOrder :=
  ⟨fun a b => Nat.le_total b.id a.id⟩

instance : IsTrans Post postOrder :=
  ⟨fun _ _ _ h1 h2 => Nat.le_trans h2 h1⟩

/-- The query `Post.objects.order_by("-id")[:5]` in `home_view`. -/
def homePosts (db : DB) : List Post :=
  (List.insertionSort postOrder db.posts).take 5

/-- View `posts/views.py` `home_view`: renders `home.html` with the 5 posts of
highest id, in descending id order.  Read-only: the state is returned
unchanged. -/
def home_view (db : DB) : DB × Response :=
  (db, .render "home.html" (homePosts db) [])

/-- View `posts/views.py` `post_list_view`: renders `post_list.html` with
`Post.objects.all()`, unbounded.  Read-only. -/
def post_list_view (db : DB) : DB × Response :=
  (db, .render "post_list.html" db.posts [])

/-- Join `.select_related("user")` on a comment row: the comment together with
the joined user row looked up by its foreign key. -/
def select_related_user (db : DB) (c : Comment) : Comment × Option User :=
  (c, db.users.find? (fun u => u.id == c.user_id))

/-- View `posts/views.py` `post_detail_view`: `get_object_or_404(Post, id=post_id)`,
then `Comment.objects.filter(post_id=post_id).select_related("user")`,
rendered into `post_detail.html`; a missing post yields the 404 response.
Read-only. -/
def post_detail_view (db : DB) (post_id : Nat) : DB × Response :=
  match db.posts.find? (fun p => p.id == post_id) with
  | none => (db, .notFound)
  | some post =>
    let comments :=
      (db.comments.filter (fun c => c.post_id == post_id)).map
        (select_related_user db)
    (db, .render "post_detail.html" [post] comments)

/-- Cascade delete of a `Post` (`on_delete=CASCADE` on `Comment.post`):
the post row goes and so does every comment whose foreign key references
it.  The `User` table is untouched. -/
def deletePost (db : DB) (pid : Nat) : DB :=
  { db with
    posts := db.posts.filter (fun p => p.id ≠ pid)
    comments := db.comments.filter (fun c => c.post_id ≠ pid) }

/-- Referential integrity as the storage layer enforces it: primary keys
are unique and every `Comment` references a stored `Post` and a stored
`User`. -/
def wellFormed (db : DB) : Prop :=
  (db.posts.map Post.id).Nodup ∧ (db.users.map User.id).Nodup ∧
    ∀ c ∈ db.comments,
      (∃ p ∈ db.posts, p.id = c.post_id) ∧ ∃ u ∈ db.users, u.id = c.user_id

/-- The schema bound on `Post.title`: `CharField(max_length=60)`. -/
def titleMaxLength : Nat := 60

/-- The creation path for posts (admin or management interface): the
storage layer accepts the row only when the title satisfies the schema
bound `max_length=60`. -/
def createPost (db : DB) (p : Post) : Option DB :=
  if p.title.length ≤ titleMaxLength then
    some { db with posts := db.posts ++ [p] }
  else
    none

end BlogSite

namespace BlogSite

/-! ### Signup (`users/views.py`, `users/forms.py`) -/

/-- The four fields `SignupForm` (a `UserCreationForm` over username and
email) binds from a POST body. -/
structure SignupData where
  username : String
  email : String
  password1 : String
  password2 : String
deriving Repr, DecidableEq

/-- HTTP method of the request reaching `signup_view`. -/
inductive Method where
  | get
  | post
deriving Repr, DecidableEq

/-- A field-level form error: field name and message. -/
structure FormError where
  field : String
  message : String
deriving Repr, DecidableEq

/-- Modelled from the spec: the username rules of the framework's
user-creation form, not under `src/` (`users/forms.py` only subclasses
`UserCreationForm`) — "validate submitted username/email/password against
the user-creation form's rules (uniqueness, password policy delegated to
the framework)".  The username must be present and not already taken. -/
def usernameErrors (db : DB) (data : SignupData) : List FormError :=
  (if data.username.length = 0 then
    [⟨"username", "This field is required."⟩] else []) ++
  (if db.users.any (fun u => u.username == data.username) then
    [⟨"username", "A user with that username already exists."⟩] else [])

/-- Modelled from the spec: the password policy of the framework's
user-creation form, not under `src/` — the two password entries must match
and the password must meet the configured minimum length. -/
def passwordErrors (data : SignupData) : List FormError :=
  (if data.password1 == data.password2 then []
   else [⟨"password2", "The two password fields did not match."⟩]) ++
  (if data.password1.length < 8 then
    [⟨"password2", "This password is too short."⟩] else [])

/-- All field-level errors of the bound form; `form.is_valid()` holds
exactly when this list is empty. -/
def formErrors (db : DB) (data : SignupData) : List FormError :=
  usernameErrors db data ++ passwordErrors data

/-- The auto primary key the `User` table assigns to the next row. -/
def freshUserId (us : List User) : Nat :=
  (us.map User.id).foldr max 0 + 1

/-- Effect of `form.save()`: persist a new `User` built from the validated data and
return it with the updated store. -/
def form_save (db : DB) (data : SignupData) : User × DB :=
  let u : User :=
    { id := freshUserId db.users, username := data.username,
      email := data.email }
  (u, { db with users := db.users ++ [u] })

/-- What `signup_view` replies with: a redirect to a named route, or the
rendered `signup.html` carrying the form's errors. -/
inductive SignupResult where
  | redirect (target : String)
  | renderForm (errors : List FormError)
deriving Repr, DecidableEq

/-- View `users/views.py` `signup_view`.  The session is the id of the
authenticated user, if any.  On POST with a valid form: `form.save()`,
`login(request, user)`, `redirect("home")`.  On POST with an invalid
form, and on GET: re-render `signup.html` with the form (and its errors),
leaving store and session as they were. -/
def signup_view (db : DB) (session : Option Nat) (m : Method)
    (data : SignupData) : DB × Option Nat × SignupResult :=
  match m with
  | .post =>
    if formErrors db data = [] then
      let (u, db2) := form_save db data
      (db2, some u.id, .redirect "home")
    else
      (db, session, .renderForm (formErrors db data))
  | .get => (db, session, .renderForm [])

/-! ### Routing (`blog_site/urls.py`, `users/urls.py`) -/

/-- The shapes a routed handler can take. -/
inductive ViewHandler where
  | dbView (f : DB → DB × Response)
  | dbIntView (f : DB → Nat → DB × Response)
  | authView (f : DB → Option Nat → Method → SignupData →
      DB × Option Nat × SignupResult)
  | frameworkView (of : String)

/-- Modelled from the spec: the portfolio view, present only in the
earliest snapshot of the repository and absent from `src/posts/views.py`
even though `src/blog_site/urls.py` imports and routes it.  The spec's
routing table records only that GET `/portfolio/` dispatches to it; it is
modelled as a read-only render of a fixed template. -/
def portfolio_view (db : DB) : DB × Response :=
  (db, .render "portfolio.html" [] [])

/-- The `urlpatterns` of `blog_site/urls.py`, with `users/urls.py` spliced in
at its `users/` prefix: each entry is the URL pattern and the name of the
handler it dispatches to. -/
def urlpatterns : List (String × String) :=
  [("admin/", "admin.site.urls"),
   ("", "home_view"),
   ("posts/", "post_list_view"),
   ("posts/<int:post_id>/", "post_detail_view"),
   ("portfolio/", "portfolio_view"),
   ("users/signup/", "signup_view"),
   ("users/login/", "LoginView"),
   ("users/logout/", "LogoutView")]

/-- Resolution of a handler name to the view it denotes: the application's
own view functions, or a framework-provided one (admin, login, logout). -/
def resolveHandler : String → Option ViewHandler
  | "home_view" => some (.dbView home_view)
  | "post_list_view" => some (.dbView post_list_view)
  | "post_detail_view" => some (.dbIntView post_detail_view)
  | "portfolio_view" => some (.dbView portfolio_view)
  | "signup_view" => some (.authView signup_view)
  | "admin.site.urls" => some (.frameworkView "django.contrib.admin")
  | "LoginView" => some (.frameworkView "django.contrib.auth.views.LoginView")
  | "LogoutView" => some (.frameworkView "django.contrib.auth.views.LogoutView")
  | _ => none

end BlogSite

namespace BlogSite

/-! ### Concrete stores used to exercise the theorems -/

/-- A store with a single post of id 1 and no comments. -/
def dbOne : DB := ⟨[⟨1, "hello", "world", 10⟩], [], []⟩

/-- A store with posts of ids 1..7 (the spec's example scenario). -/
def dbSeven : DB :=
  ⟨[⟨1, "p1", "c1", 1⟩, ⟨2, "p2", "c2", 2⟩, ⟨3, "p3", "c3", 3⟩,
    ⟨4, "p4", "c4", 4⟩, ⟨5, "p5", "c5", 5⟩, ⟨6, "p6", "c6", 6⟩,
    ⟨7, "p7", "c7", 7⟩], [], []⟩

/-- A store with two posts, comments on both, and two users. -/
def dbFull : DB :=
  ⟨[⟨1, "first", "body1", 1⟩, ⟨2, "second", "body2", 2⟩],
   [⟨10, "nice", 1, 100⟩, ⟨11, "hmm", 2, 101⟩, ⟨12, "again", 1, 101⟩],
   [⟨100, "alice", "a@x"⟩, ⟨101, "bob", "b@x"⟩]⟩

end BlogSite

namespace BlogSite

/-- C2: for every post identifier not present in storage, the detail view
returns the not-found (HTTP 404) response rather than an internal error. -/
theorem post_detail_missing_404 (db : DB) (pid : Nat)
    (h : ∀ p ∈ db.posts, p.id ≠ pid) :
    post_detail_view db pid = (db, .notFound) := by
  have hfind : db.posts.find? (fun p => p.id == pid) = none := by
    rw [List.find?_eq_none]
    intro p hp
    simpa using h p hp
  simp [post_detail_view, hfind]

/-- Witness for C2: id 2 is absent from `dbOne`, so the detail view 404s. -/
theorem post_detail_missing_404_witness :
    post_detail_view dbOne 2 = (dbOne, .notFound) :=
  post_detail_missing_404 dbOne 2 (by decide)

/-- C6: the post list view returns every post in storage, count-for-count,
with no bound on the result size, and leaves the store untouched. -/
theorem post_list_every_post (db : DB) :
    ∃ ps, post_list_view db = (db, .render "post_list.html" ps []) ∧
      ps.length = db.posts.length ∧
      ∀ p : Post, ps.count p = db.posts.count p :=
  ⟨db.posts, rfl, rfl, fun _ => rfl⟩

/-- C7: the three read-only views (home, list, detail) leave the stored
state — posts, comments and users alike — exactly as it was. -/
theorem views_read_only (db : DB) :
    (home_view db).1 = db ∧ (post_list_view db).1 = db ∧
      ∀ pid : Nat, (post_detail_view db pid).1 = db := by
  refine ⟨rfl, rfl, fun pid => ?_⟩
  unfold post_detail_view
  cases db.posts.find? (fun p => p.id == pid) <;> rfl

/-- C9: the schema bound on `Post.title` is 60 characters, and the creation
path preserves the invariant that every stored post's title has at most 60
characters. -/
theorem title_bounded_by_60 :
    titleMaxLength = 60 ∧
    ∀ (db : DB) (p : Post) (db2 : DB),
      (∀ q ∈ db.posts, q.title.length ≤ 60) →
      createPost db p = some db2 →
      ∀ q ∈ db2.posts, q.title.length ≤ 60 := by
  refine ⟨rfl, fun db p db2 hall hcreate q hq => ?_⟩
  unfold createPost at hcreate
  split at hcreate
  · rename_i hle
    cases hcreate
    rcases List.mem_append.1 hq with h | h
    · exact hall q h
    · have hqp : q = p := List.mem_singleton.1 h
      subst hqp
      exact hle
  · cases hcreate

/-- Witness for C9: inserting a short-titled post into `dbOne` keeps every
stored title within 60 characters. -/
theorem title_bounded_by_60_witness :
    ∀ q ∈ (DB.mk (dbOne.posts ++ [⟨2, "short", "c", 0⟩]) [] []).posts,
      q.title.length ≤ 60 :=
  title_bounded_by_60.2 dbOne ⟨2, "short", "c", 0⟩
    (DB.mk (dbOne.posts ++ [⟨2, "short", "c", 0⟩]) [] [])
    (by decide) (by decide)

/-- C10: a signup POST whose form validation fails changes nothing: the
user table and the session are as before, and the response is the
re-rendered form carrying the errors. -/
theorem signup_invalid_no_session (db : DB) (s : Option Nat)
    (data : SignupData) (h : formErrors db data ≠ []) :
    signup_view db s .post data = (db, s, .renderForm (formErrors db data)) := by
  simp only [signup_view]
  rw [if_neg h]

/-- Witness for C10: a POST with a too-short password into an empty store
leaves store and session unchanged. -/
theorem signup_invalid_no_session_witness :
    signup_view ⟨[], [], []⟩ none .post ⟨"carol", "c@x", "short", "short"⟩ =
      (⟨[], [], []⟩, none,
        .renderForm (formErrors ⟨[], [], []⟩ ⟨"carol", "c@x", "short", "short"⟩)) :=
  signup_invalid_no_session ⟨[], [], []⟩ none ⟨"carol", "c@x", "short", "short"⟩
    (by decide)

end BlogSite

namespace BlogSite

/-- C8: every handler name referenced by the routing table resolves to a
defined view; in particular `portfolio_view` (modelled from the spec, since
the snapshot's `posts/views.py` no longer carries it while `urls.py` still
imports it) is what GET `/portfolio/` dispatches to. -/
theorem routes_all_resolve :
    urlpatterns.all (fun r => (resolveHandler r.2).isSome) = true ∧
    resolveHandler "portfolio_view" = some (.dbView portfolio_view) :=
  ⟨rfl, rfl⟩

/-- Deleting a post preserves referential integrity: key uniqueness and
liveness of every comment's references survive the cascade. -/
theorem wellFormed_deletePost (db : DB) (pid : Nat) (h : wellFormed db) :
    wellFormed (deletePost db pid) := by
  obtain ⟨hpn, hun, href⟩ := h
  refine ⟨?_, hun, ?_⟩
  · exact hpn.sublist ((db.posts.filter_sublist).map Post.id)
  · intro c hc
    have hcm : c ∈ db.comments := List.mem_of_mem_filter hc
    have hcp : c.post_id ≠ pid := by
      have := List.of_mem_filter hc
      simpa using this
    obtain ⟨⟨p, hp, hpid⟩, u, hu, huid⟩ := href c hcm
    refine ⟨⟨p, ?_, hpid⟩, u, hu, huid⟩
    exact List.mem_filter.2 ⟨hp, by simp [hpid, hcp]⟩

/-- C5: deleting a post cascade-deletes exactly the comments referencing
it — none survive with that foreign key — and in a referentially intact
store every surviving comment still references exactly one live post and
exactly one live user. -/
theorem cascade_delete_no_orphans (db : DB) (pid : Nat) :
    (∀ c ∈ (deletePost db pid).comments, c.post_id ≠ pid) ∧
    (wellFormed db →
      ∀ c ∈ (deletePost db pid).comments,
        (∃! p, p ∈ (deletePost db pid).posts ∧ p.id = c.post_id) ∧
        (∃! u, u ∈ (deletePost db pid).users ∧ u.id = c.user_id)) := by
  constructor
  · intro c hc
    have := List.of_mem_filter hc
    simpa using this
  · intro hwf c hc
    obtain ⟨hpn, hun, href⟩ := wellFormed_deletePost db pid hwf
    obtain ⟨⟨p, hp, hpid⟩, u, hu, huid⟩ := href c hc
    constructor
    · refine ⟨p, ⟨hp, hpid⟩, ?_⟩
      rintro q ⟨hq, hqid⟩
      exact List.inj_on_of_nodup_map hpn hq hp (by rw [hqid, hpid])
    · refine ⟨u, ⟨hu, huid⟩, ?_⟩
      rintro v ⟨hv, hvid⟩
      exact List.inj_on_of_nodup_map hun hv hu (by rw [hvid, huid])

/-- Witness for C5: deleting post 1 from `dbFull` leaves no comment with
foreign key 1, and the surviving comment still has unique live
references. -/
theorem cascade_delete_no_orphans_witness :
    (∀ c ∈ (deletePost dbFull 1).comments, c.post_id ≠ 1) ∧
    ∀ c ∈ (deletePost dbFull 1).comments,
      (∃! p, p ∈ (deletePost dbFull 1).posts ∧ p.id = c.post_id) ∧
      (∃! u, u ∈ (deletePost dbFull 1).users ∧ u.id = c.user_id) :=
  ⟨(cascade_delete_no_orphans dbFull 1).1,
   (cascade_delete_no_orphans dbFull 1).2 ⟨by decide, by decide, by decide⟩⟩

end BlogSite

namespace BlogSite

/-- C1: for a post identifier present in storage, the detail view renders
that post together with exactly the comments whose foreign key equals the
identifier, each paired with its user's row. -/
theorem post_detail_found (db : DB) (pid : Nat) (p : Post)
    (hnodup : (db.posts.map Post.id).Nodup) (hp : p ∈ db.posts)
    (hid : p.id = pid)
    (husers : ∀ c ∈ db.comments, ∃ u ∈ db.users, u.id = c.user_id) :
    ∃ cs, post_detail_view db pid = (db, .render "post_detail.html" [p] cs) ∧
      cs.map Prod.fst = db.comments.filter (fun c => c.post_id == pid) ∧
      (∀ c : Comment, c ∈ cs.map Prod.fst ↔ c ∈ db.comments ∧ c.post_id = pid) ∧
      ∀ pr ∈ cs, ∃ u, pr.2 = some u ∧ u.id = pr.1.user_id := by
  have hsome : (db.posts.find? (fun q => q.id == pid)).isSome :=
    List.find?_isSome.2 ⟨p, hp, by simp [hid]⟩
  obtain ⟨q, hq⟩ := Option.isSome_iff_exists.1 hsome
  have hqmem : q ∈ db.posts := List.mem_of_find?_eq_some hq
  have hqid : q.id = pid := by simpa using List.find?_some hq
  have hqp : q = p :=
    List.inj_on_of_nodup_map hnodup hqmem hp (by rw [hqid, hid])
  subst hqp
  have hmapfst :
      ((db.comments.filter (fun c => c.post_id == pid)).map
          (select_related_user db)).map Prod.fst =
        db.comments.filter (fun c => c.post_id == pid) := by
    rw [List.map_map]
    exact List.map_id'' (fun _ => rfl) _
  refine ⟨(db.comments.filter (fun c => c.post_id == pid)).map
      (select_related_user db), ?_, hmapfst, ?_, ?_⟩
  · simp [post_detail_view, hq]
  · intro c
    rw [hmapfst, List.mem_filter]
    simp
  · intro pr hpr
    obtain ⟨c, hcf, rfl⟩ := List.mem_map.1 hpr
    have hcm : c ∈ db.comments := (List.mem_filter.1 hcf).1
    obtain ⟨u, hu, huid⟩ := husers c hcm
    have husome : (db.users.find? (fun v => v.id == c.user_id)).isSome :=
      List.find?_isSome.2 ⟨u, hu, by simp [huid]⟩
    obtain ⟨v, hv⟩ := Option.isSome_iff_exists.1 husome
    refine ⟨v, by simp [select_related_user, hv], ?_⟩
    simpa [select_related_user] using List.find?_some hv

/-- Witness for C1: post 1 of `dbFull` renders with exactly its two
comments, each joined to its user. -/
theorem post_detail_found_witness :
    ∃ cs, post_detail_view dbFull 1 =
        (dbFull, .render "post_detail.html" [⟨1, "first", "body1", 1⟩] cs) ∧
      cs.map Prod.fst = dbFull.comments.filter (fun c => c.post_id == 1) ∧
      (∀ c : Comment,
        c ∈ cs.map Prod.fst ↔ c ∈ dbFull.comments ∧ c.post_id = 1) ∧
      ∀ pr ∈ cs, ∃ u, pr.2 = some u ∧ u.id = pr.1.user_id :=
  post_detail_found dbFull 1 ⟨1, "first", "body1", 1⟩ (by decide) (by decide)
    rfl (by decide)

/-- C3: the home page holds at most 5 posts — exactly `min 5 n` of the `n`
stored ones — sorted by descending id, drawn from storage, and any stored
post left out has an id no higher than any shown; on the spec's example
store of ids 1..7 the page shows 7,6,5,4,3 in that order. -/
theorem home_top5_desc :
    (∀ db : DB,
      (homePosts db).length ≤ 5 ∧
      (homePosts db).length = min 5 db.posts.length ∧
      (homePosts db).Sorted postOrder ∧
      (∀ p ∈ homePosts db, p ∈ db.posts) ∧
      ∀ p ∈ db.posts, p ∉ homePosts db → ∀ q ∈ homePosts db, p.id ≤ q.id) ∧
    (homePosts dbSeven).map Post.id = [7, 6, 5, 4, 3] := by
  constructor
  · intro db
    have hperm : (List.insertionSort postOrder db.posts).Perm db.posts :=
      List.perm_insertionSort postOrder db.posts
    have hsorted :
        List.Sorted postOrder (List.insertionSort postOrder db.posts) :=
      List.sorted_insertionSort postOrder db.posts
    refine ⟨?_, ?_, ?_, ?_, ?_⟩
    · rw [homePosts, List.length_take]
      exact min_le_left _ _
    · rw [homePosts, List.length_take, hperm.length_eq]
    · exact hsorted.sublist (List.take_sublist 5 _)
    · intro p hp5
      exact hperm.mem_iff.1 (List.mem_of_mem_take hp5)
    · intro p hpm hpn q hq
      simp only [homePosts] at hpn hq
      have hps : p ∈ List.insertionSort postOrder db.posts :=
        hperm.mem_iff.2 hpm
      have hsplit := List.take_append_drop 5 (List.insertionSort postOrder db.posts)
      rw [← hsplit] at hps hsorted
      have hpd : p ∈ (List.insertionSort postOrder db.posts).drop 5 :=
        (List.mem_append.1 hps).resolve_left hpn
      exact (List.pairwise_append.1 hsorted).2.2 q hq p hpd
  · rfl

/-- Witness for C3: on the store of posts 1..7, the page is the 5 ids
7,6,5,4,3 in descending order, and the left-out post 1 has a lower id than
each of them. -/
theorem home_top5_desc_witness :
    (homePosts dbSeven).length ≤ 5 ∧
    (∀ q ∈ homePosts dbSeven, (Post.mk 1 "p1" "c1" 1).id ≤ q.id) ∧
    (homePosts dbSeven).map Post.id = [7, 6, 5, 4, 3] :=
  ⟨(home_top5_desc.1 dbSeven).1,
   (home_top5_desc.1 dbSeven).2.2.2.2 ⟨1, "p1", "c1", 1⟩ (by decide) (by decide),
   home_top5_desc.2⟩

end BlogSite

namespace BlogSite

/-- A store whose only user is `alice`, for exercising the signup view. -/
def dbAlice : DB := ⟨[], [], [⟨100, "alice", "a@x"⟩]⟩

/-- A valid, unique submission for `dbAlice`. -/
def goodSignup : SignupData := ⟨"bob", "b@x", "longenough", "longenough"⟩

/-- A submission whose username duplicates `alice`. -/
def dupSignup : SignupData := ⟨"alice", "a2@x", "longenough", "longenough"⟩

/-- C4: a signup POST with a valid form (unique username, conforming
password) persists exactly one new user, authenticates the session as that
user and redirects home; a POST whose username is already taken persists
nothing and re-renders the form with a field-level username error — no
redirect, same request cycle. -/
theorem signup_post_outcomes (db : DB) (s : Option Nat) (data : SignupData) :
    (formErrors db data = [] →
      ∃ u : User,
        (signup_view db s .post data).1 =
          { db with users := db.users ++ [u] } ∧
        (signup_view db s .post data).1.users.length = db.users.length + 1 ∧
        u.username = data.username ∧
        (signup_view db s .post data).2.1 = some u.id ∧
        (signup_view db s .post data).2.2 = .redirect "home") ∧
    ((∃ u ∈ db.users, u.username = data.username) →
      (signup_view db s .post data).1 = db ∧
      (signup_view db s .post data).2.1 = s ∧
      ∃ errs, (signup_view db s .post data).2.2 = .renderForm errs ∧
        FormError.mk "username" "A user with that username already exists."
          ∈ errs) := by
  constructor
  · intro hval
    have hv : signup_view db s .post data =
        ((form_save db data).2, some (form_save db data).1.id,
          SignupResult.redirect "home") := by
      simp only [signup_view]
      rw [if_pos hval]
    refine ⟨(form_save db data).1, ?_, ?_, rfl, ?_, ?_⟩
    · rw [hv]
      exact rfl
    · rw [hv]
      simp [form_save]
    · rw [hv]
    · rw [hv]
  · rintro ⟨u, hu, huname⟩
    have hany : db.users.any (fun v => v.username == data.username) = true :=
      List.any_eq_true.2 ⟨u, hu, by simp [huname]⟩
    have hmem :
        FormError.mk "username" "A user with that username already exists."
          ∈ formErrors db data := by
      unfold formErrors usernameErrors
      rw [hany]
      simp
    have hne : formErrors db data ≠ [] := List.ne_nil_of_mem hmem
    have hv : signup_view db s .post data =
        (db, s, .renderForm (formErrors db data)) := by
      simp only [signup_view]
      rw [if_neg hne]
    exact ⟨by rw [hv], by rw [hv], formErrors db data, by rw [hv], hmem⟩

/-- Witness for C4: on `dbAlice`, signing up as `bob` redirects home with
one more user, and signing up again as `alice` leaves the store alone and
re-renders with the duplicate-username error. -/
theorem signup_post_outcomes_witness :
    ((signup_view dbAlice none .post goodSignup).1.users.length =
        dbAlice.users.length + 1 ∧
      (signup_view dbAlice none .post goodSignup).2.2 = .redirect "home") ∧
    ((signup_view dbAlice none .post dupSignup).1 = dbAlice ∧
      ∃ errs,
        (signup_view dbAlice none .post dupSignup).2.2 = .renderForm errs ∧
        FormError.mk "username" "A user with that username already exists."
          ∈ errs) := by
  constructor
  · obtain ⟨u, _, h2, _, _, h5⟩ :=
      (signup_post_outcomes dbAlice none goodSignup).1 (by decide)
    exact ⟨h2, h5⟩
  · obtain ⟨h1, _, herrs⟩ :=
      (signup_post_outcomes dbAlice none dupSignup).2
        ⟨⟨100, "alice", "a@x"⟩, by decide, rfl⟩
    exact ⟨h1, herrs⟩

end BlogSite
